import Mathlib

/-!
Verification development for the two UI panels of this repository:
the ChatPanel (a chat sidebar with a delayed placeholder AI response) and
the AgentModePage (an "agent mode" workspace view with thought/action/step
logs). The definitions below are a shallow embedding of the client-local
state and its update protocol; DOM construction and styling are out of
scope. Observables are embedded as plain record fields; each event handler
becomes a pure state-transition function. The single-threaded, event-driven
execution model means every handler runs to completion as one transition.
-/

/-- Sender tag on a chat message: `"user" | "ai"` in the source. -/
inductive Sender where
  | user
  | ai
deriving DecidableEq, Repr

/-- The `error` payload carried inside a ChatMessage (`\x7bmessage: string\x7d`). -/
structure ChatError where
  message : String
deriving DecidableEq, Repr

/-- ChatMessage from `app/client/models/ChatHistory`: sender tag, text, and
optional formula / error payloads. -/
structure ChatMessage where
  sender : Sender
  message : String
  formula : Option String := none
  error : Option ChatError := none
deriving DecidableEq, Repr

/-- The state of one ChatPanel instance. `messages`, `inputText` and
`thinking` embed the three observables of the class. `pendingTimers` counts
`setTimeout` callbacks that have been scheduled but have not yet fired
(embedding bookkeeping for the event loop), and `disposed` records whether
the panel's `Disposable` has been disposed. -/
structure ChatState where
  messages : List ChatMessage
  inputText : String
  thinking : Bool
  pendingTimers : Nat
  disposed : Bool
deriving DecidableEq, Repr

/-- The fixed welcome message installed by the ChatPanel constructor. -/
def welcomeMessage : ChatMessage :=
  { sender := Sender.ai,
    message := "Hi! I\x27m your AI assistant. I can help you with formulas, data analysis, " ++
      "and understanding your spreadsheet. What would you like to know?" }

/-- The fixed placeholder response pushed by the `setTimeout` callback in
`_sendMessage`. -/
def aiPlaceholderMessage : ChatMessage :=
  { sender := Sender.ai,
    message := "I\x27m ready to help! The AI backend integration is coming soon. " ++
      "In the meantime, I can show you what the interface will look like." }

/-- ChatPanel state right after construction: the message log holds exactly
the welcome message, the input buffer is empty, the thinking flag is down,
no timer is pending and the panel is live. -/
def chatPanelInit : ChatState :=
  { messages := [welcomeMessage],
    inputText := "",
    thinking := false,
    pendingTimers := 0,
    disposed := false }

/-- Embedding of JavaScript `String.prototype.trim`: drops whitespace
characters from both ends of the string. Written with structural list
recursion so that concrete instances evaluate. -/
def jsTrim (s : String) : String :=
  String.mk (((s.data.dropWhile Char.isWhitespace).reverse.dropWhile
    Char.isWhitespace).reverse)

/-- The `input` DOM handler: stores the textarea's value into the
`_inputText` observable. -/
def setInputText (s : ChatState) (text : String) : ChatState :=
  { s with inputText := text }

/-- `_sendMessage` (the synchronous part, up to and including scheduling the
`setTimeout`): trims the input; returns unchanged if the trimmed text is
empty or the thinking flag is up; otherwise appends one user message,
clears the input buffer, raises the thinking flag and schedules the delayed
placeholder response. -/
def _sendMessage (s : ChatState) : ChatState :=
  let message := jsTrim s.inputText
  if message = "" || s.thinking then s
  else
    { s with
      messages := s.messages ++ [{ sender := Sender.user, message := message }],
      inputText := "",
      thinking := true,
      pendingTimers := s.pendingTimers + 1 }

/-- The `setTimeout` callback body scheduled by `_sendMessage` (fires after
1500 ms): appends the fixed ai placeholder message and lowers the thinking
flag. The source registers no `onDispose` hook and never calls
`clearTimeout`, so the callback body does not consult `disposed`: a pending
timer fires even on a disposed panel. -/
def _resolveResponse (s : ChatState) : ChatState :=
  if s.pendingTimers = 0 then s
  else
    { s with
      messages := s.messages ++ [aiPlaceholderMessage],
      thinking := false,
      pendingTimers := s.pendingTimers - 1 }

/-- Disposal of the panel's `Disposable`. No dispose hook in the source
cancels the pending response timer. -/
def _disposePanel (s : ChatState) : ChatState :=
  { s with disposed := true }

/-- States a single ChatPanel can be in: the constructed state, closed
under typing into the input box, sending, the delayed response firing, and
disposal. -/
inductive ChatReachable : ChatState → Prop where
  | init : ChatReachable chatPanelInit
  | input {s : ChatState} (text : String) :
      ChatReachable s → ChatReachable (setInputText s text)
  | send {s : ChatState} :
      ChatReachable s → ChatReachable (_sendMessage s)
  | resolve {s : ChatState} :
      ChatReachable s → ChatReachable (_resolveResponse s)
  | dispose {s : ChatState} :
      ChatReachable s → ChatReachable (_disposePanel s)

/-- AgentThought.type: `"thinking" | "planning" | "executing" | "completed" | "error"`. -/
inductive ThoughtType where
  | thinking
  | planning
  | executing
  | completed
  | error
deriving DecidableEq, Repr

/-- AgentThought log entry. Timestamps are `Date.now()` milliseconds,
embedded as `Int`. -/
structure AgentThought where
  timestamp : Int
  type : ThoughtType
  message : String
deriving DecidableEq, Repr

/-- AgentAction.type. -/
inductive ActionType where
  | read
  | write
  | query
  | formula
  | permission_denied
deriving DecidableEq, Repr

/-- AgentAction.status. -/
inductive ActionStatus where
  | success
  | error
  | pending
deriving DecidableEq, Repr

/-- One row of the tabular sample result (customer, revenue, orders).
Currency amounts are embedded as exact rationals. -/
structure CustomerRow where
  customer : String
  revenue : ℚ
  orders : Nat
deriving DecidableEq, Repr

/-- The tagged union carried in AgentAction.result: a scalar value, a
tabular payload, or an error message. -/
inductive ActionResult where
  | value (value : String)
  | data (rows : List CustomerRow)
  | error (error : String)
deriving DecidableEq, Repr

/-- AgentAction log entry. Durations (`number` in the source) are embedded
as exact rationals. -/
structure AgentAction where
  id : String
  timestamp : Int
  type : ActionType
  description : String
  status : ActionStatus
  duration : Option ℚ := none
  result : Option ActionResult := none
deriving DecidableEq, Repr

/-- ExecutionStep.status. -/
inductive StepStatus where
  | running
  | completed
  | error
deriving DecidableEq, Repr

/-- ExecutionStep log entry. -/
structure ExecutionStep where
  id : String
  title : String
  details : List String
  duration : ℚ
  status : StepStatus
deriving DecidableEq, Repr

/-- The state of one AgentModePage instance: one field per observable of
the class (`_autoScroll` and `_livePreviewEnabled` included for
completeness; no operation below touches them). -/
structure AgentState where
  thoughts : List AgentThought
  actions : List AgentAction
  executionSteps : List ExecutionStep
  schema : String
  memoryContext : List String
  generatedCode : String
  isPaused : Bool
  autoScroll : Bool
  selectedAction : Option AgentAction
  livePreviewEnabled : Bool
deriving DecidableEq, Repr

/-- The four sample thoughts set by `_initializeSampleData`; `now` stands
for the value of `Date.now()` during the call. -/
def sampleThoughts (now : Int) : List AgentThought :=
  [ { timestamp := now - 5000, type := ThoughtType.thinking,
      message := "Analyzing document structure..." },
    { timestamp := now - 4000, type := ThoughtType.planning,
      message := "Planning query execution strategy" },
    { timestamp := now - 2000, type := ThoughtType.executing,
      message := "Executing SUM aggregation on Orders table" },
    { timestamp := now - 1000, type := ThoughtType.completed,
      message := "Query completed successfully" } ]

/-- The three sample execution steps set by `_initializeSampleData`
(no timestamps, so independent of the clock). -/
def sampleExecutionSteps : List ExecutionStep :=
  [ { id := "1", title := "Schema Analysis",
      details := [ "Tables: Orders, Products, Customers",
        "Relationships detected: 3",
        "Columns analyzed: 42" ],
      duration := 1.2, status := StepStatus.completed },
    { id := "2", title := "Query Planning",
      details := [ "Target: SUM(Orders.total)",
        "Filters: date > 2024-01-01",
        "Optimization: Index scan" ],
      duration := 0.8, status := StepStatus.completed },
    { id := "3", title := "Formula Generation",
      details := [ "Function: AGGREGATE",
        "Parameters validated" ],
      duration := 0.3, status := StepStatus.running } ]

/-- The four sample actions set by `_initializeSampleData`. -/
def sampleActions (now : Int) : List AgentAction :=
  [ { id := "1", timestamp := now - 10000, type := ActionType.read,
      description := "Read document schema",
      status := ActionStatus.success, duration := some 45,
      result := some (ActionResult.value "3 tables, 42 columns") },
    { id := "2", timestamp := now - 8000, type := ActionType.query,
      description := "Executed aggregation query: SUM(Orders.total)",
      status := ActionStatus.success, duration := some 120,
      result := some (ActionResult.value "$45,678.90") },
    { id := "3", timestamp := now - 5000, type := ActionType.query,
      description := "Fetched top 5 customers by revenue",
      status := ActionStatus.success, duration := some 89,
      result := some (ActionResult.data
        [ { customer := "Acme Corp", revenue := 15234.50, orders := 23 },
          { customer := "TechStart Inc", revenue := 12456.00, orders := 18 },
          { customer := "Global Traders", revenue := 9876.30, orders := 15 },
          { customer := "Smith & Co", revenue := 8654.20, orders := 12 },
          { customer := "Data Systems", revenue := 7543.10, orders := 10 } ]) },
    { id := "4", timestamp := now - 3000, type := ActionType.permission_denied,
      description := "Attempted to delete records",
      status := ActionStatus.error,
      result := some (ActionResult.error
        "Permission denied: DELETE operation requires admin access") } ]

/-- The sample schema string: the exact output of
`JSON.stringify(..., null, 2)` on the literal in `_initializeSampleData`. -/
def sampleSchema : String := String.intercalate "\n"
  [ "\x7b",
    "  \"tables\": [",
    "    \x7b",
    "      \"name\": \"Orders\",",
    "      \"columns\": [",
    "        \"id\",",
    "        \"customer_id\",",
    "        \"total\",",
    "        \"date\"",
    "      ],",
    "      \"rowCount\": 1523",
    "    \x7d,",
    "    \x7b",
    "      \"name\": \"Products\",",
    "      \"columns\": [",
    "        \"id\",",
    "        \"name\",",
    "        \"price\",",
    "        \"category\"",
    "      ],",
    "      \"rowCount\": 89",
    "    \x7d",
    "  ],",
    "  \"relationships\": [",
    "    \x7b",
    "      \"from\": \"Orders.customer_id\",",
    "      \"to\": \"Customers.id\"",
    "    \x7d",
    "  ]",
    "\x7d" ]

/-- The sample generated code string. -/
def sampleGeneratedCode : String :=
  "# Generated Formula\nSUM(Orders.total)\n\n" ++
  "# Filter Condition\nOrders.date > DATE(2024, 1, 1)\n\n" ++
  "# Execution Plan\n# 1. Scan Orders table\n# 2. Apply date filter\n# 3. Aggregate totals"

/-- The sample memory context entries. -/
def sampleMemoryContext : List String :=
  [ "User asked about total sales for 2024",
    "Identified Orders table contains sales data",
    "Date column format: YYYY-MM-DD",
    "Total column is numeric (currency)" ]

/-- `_initializeSampleData`: populates the logs, schema, generated code and
memory with the fixed sample data, and selects the third action
(`this._actions.get()[2]`, embedded as `get? 2` since a JS out-of-range
index would give `undefined`). `now` is the value of `Date.now()` during
the call. -/
def _initializeSampleData (now : Int) (a : AgentState) : AgentState :=
  { a with
    thoughts := sampleThoughts now,
    executionSteps := sampleExecutionSteps,
    actions := sampleActions now,
    selectedAction := (sampleActions now).get? 2,
    schema := sampleSchema,
    generatedCode := sampleGeneratedCode,
    memoryContext := sampleMemoryContext }

/-- AgentModePage state as created by the field initializers, before the
constructor calls `_initializeSampleData`. -/
def agentState0 : AgentState :=
  { thoughts := [], actions := [], executionSteps := [], schema := "",
    memoryContext := [], generatedCode := "", isPaused := false,
    autoScroll := true, selectedAction := none, livePreviewEnabled := true }

/-- AgentModePage state right after construction (field initializers
followed by `_initializeSampleData`). -/
def agentModePageInit (now : Int) : AgentState :=
  _initializeSampleData now agentState0

/-- `_sendAgentCommand`: returns unchanged if the command trims to empty;
otherwise appends one thinking-type thought describing the command.
`now` is the value of `Date.now()` during the call. -/
def _sendAgentCommand (now : Int) (command : String) (a : AgentState) : AgentState :=
  if jsTrim command = "" then a
  else
    { a with
      thoughts := a.thoughts ++
        [ { timestamp := now, type := ThoughtType.thinking,
            message := "Processing: \"" ++ command ++ "\"" } ] }

/-- `_togglePause`: flips the `_isPaused` flag and touches nothing else. -/
def _togglePause (a : AgentState) : AgentState :=
  { a with isPaused := !a.isPaused }

/-- `_clearAgent`: empties the four list logs (thoughts, actions, execution
steps, memory context) and touches nothing else. -/
def _clearAgent (a : AgentState) : AgentState :=
  { a with
    thoughts := [],
    actions := [],
    executionSteps := [],
    memoryContext := [] }

/-- Projection of a thought without its timestamp (the clock-independent
part of the entry). -/
def thoughtBody (th : AgentThought) : ThoughtType × String :=
  (th.type, th.message)

/-- Projection of an action without its timestamp (the clock-independent
part of the entry). -/
def actionBody (act : AgentAction) :
    String × ActionType × String × ActionStatus × Option ℚ × Option ActionResult :=
  (act.id, act.type, act.description, act.status, act.duration, act.result)

/-- A ChatPanel state with a non-empty input buffer, used as the concrete
instance for the send theorems. -/
def sHello : ChatState := { chatPanelInit with inputText := "hello" }

/-- The state reached by typing "hello", sending it, and then disposing the
panel while the 1500 ms response timer is still pending. -/
def sMid : ChatState := _disposePanel (_sendMessage (setInputText chatPanelInit "hello"))

/-- C1: sending a non-empty message while not busy appends exactly one
user-sender entry to the log and schedules the delayed response in the same
transition (the timer is only scheduled once the append has happened: the
post-state holds both); when the timer fires, exactly one ai-sender entry
(the fixed placeholder) lands directly after that user message in log
order, and the busy flag is cleared. -/
theorem chatPanel_send_appends_user_then_ai (s : ChatState)
    (h1 : jsTrim s.inputText ≠ "") (h2 : s.thinking = false) :
    (_sendMessage s).messages =
      s.messages ++ [{ sender := Sender.user, message := jsTrim s.inputText }] ∧
    (_sendMessage s).pendingTimers = s.pendingTimers + 1 ∧
    (_sendMessage s).thinking = true ∧
    (_resolveResponse (_sendMessage s)).messages =
      s.messages ++ [{ sender := Sender.user, message := jsTrim s.inputText },
        aiPlaceholderMessage] ∧
    (_resolveResponse (_sendMessage s)).thinking = false := by
  have hc : (decide (jsTrim s.inputText = "") || s.thinking) = false := by
    simp [h1, h2]
  refine ⟨?_, ?_, ?_, ?_, ?_⟩ <;>
    simp [_sendMessage, _resolveResponse, hc]

/-- C1 witness: the send theorem applied at the concrete state `sHello`. -/
theorem chatPanel_send_appends_user_then_ai_witness :
    (_sendMessage sHello).messages =
      sHello.messages ++ [{ sender := Sender.user, message := jsTrim sHello.inputText }] ∧
    (_sendMessage sHello).pendingTimers = sHello.pendingTimers + 1 ∧
    (_sendMessage sHello).thinking = true ∧
    (_resolveResponse (_sendMessage sHello)).messages =
      sHello.messages ++ [{ sender := Sender.user, message := jsTrim sHello.inputText },
        aiPlaceholderMessage] ∧
    (_resolveResponse (_sendMessage sHello)).thinking = false :=
  chatPanel_send_appends_user_then_ai sHello (by decide) rfl

/-- C2 (code bug): the source never cancels the `setTimeout` scheduled by
`_sendMessage` (no `clearTimeout`, no `onDispose` hook), so disposing the
panel mid-flight does not stop the scheduled append. Concretely: type
"hello", send, dispose; the pending callback still fires, growing the log
from 2 to 3 entries and clearing the busy flag on the disposed panel —
contradicting the spec's requirement that the timer be revoked on
teardown. -/
theorem chatPanel_timer_fires_after_dispose :
    sMid.disposed = true ∧
    sMid.thinking = true ∧
    sMid.messages.length = 2 ∧
    (_resolveResponse sMid).disposed = true ∧
    (_resolveResponse sMid).messages.length = 3 ∧
    (_resolveResponse sMid).thinking = false :=
  ⟨rfl, rfl, rfl, rfl, rfl, rfl⟩

/-- C3: attempting to send while the busy flag is set leaves the whole
ChatPanel state unchanged — log, input buffer, busy flag and pending
timers. -/
theorem chatPanel_send_while_busy_noop (s : ChatState) (h : s.thinking = true) :
    _sendMessage s = s := by
  simp [_sendMessage, h]

/-- C3 witness: sending while busy at a concrete state. -/
theorem chatPanel_send_while_busy_noop_witness :
    _sendMessage { chatPanelInit with inputText := "hello", thinking := true } =
      { chatPanelInit with inputText := "hello", thinking := true } :=
  chatPanel_send_while_busy_noop _ rfl

/-- C4: an input that trims to empty (empty or whitespace-only) makes the
send a no-op in both panels: the entire ChatPanel state is unchanged (so
the log is unchanged and no timer is scheduled) and the entire
AgentModePage state is unchanged; no error is recorded anywhere. -/
theorem send_empty_input_noop (s : ChatState) (a : AgentState)
    (cmd : String) (now : Int)
    (h1 : jsTrim s.inputText = "") (h2 : jsTrim cmd = "") :
    _sendMessage s = s ∧ _sendAgentCommand now cmd a = a := by
  constructor
  · simp [_sendMessage, h1]
  · simp [_sendAgentCommand, h2]

/-- C4 witness: whitespace-only inputs for both panels. -/
theorem send_empty_input_noop_witness :
    _sendMessage { chatPanelInit with inputText := "   " } =
      { chatPanelInit with inputText := "   " } ∧
    _sendAgentCommand 0 " " agentState0 = agentState0 :=
  send_empty_input_noop _ agentState0 " " 0 (by decide) (by decide)

/-- C5: `_clearAgent` is a single transition of the single-threaded event
model, and in its (unique) post-state all three named agent logs have
length 0 at once — no observable state has some of them emptied and
others not, because the emptying happens in one step. -/
theorem clearAgent_empties_three_logs (a : AgentState) :
    (_clearAgent a).thoughts.length = 0 ∧
    (_clearAgent a).actions.length = 0 ∧
    (_clearAgent a).executionSteps.length = 0 :=
  ⟨rfl, rfl, rfl⟩

/-- C6 counterexample: seeding reads the clock (`Date.now()`), so two runs
at different instants yield different thought-log contents — the
timestamps differ. This refutes "repeated runs of the seeding yield
identical log contents" as literally stated. -/
theorem initializeSampleData_time_dependent :
    (_initializeSampleData 100000 agentState0).thoughts ≠
      (_initializeSampleData 200000 agentState0).thoughts := by
  decide

/-- C6 (amended): seeding always yields exactly 4 thoughts, 3 execution
steps and 4 actions, and is deterministic up to the clock: the execution
steps are identical across any two runs, and the thought and action logs
agree across any two runs once the clock-derived timestamp field is
erased (the seeding is a pure function of the clock reading, so two runs
at the same instant are fully identical). -/
theorem initializeSampleData_counts_and_determinism
    (now n1 n2 : Int) (a a1 a2 : AgentState) :
    (_initializeSampleData now a).thoughts.length = 4 ∧
    (_initializeSampleData now a).executionSteps.length = 3 ∧
    (_initializeSampleData now a).actions.length = 4 ∧
    (_initializeSampleData n1 a1).thoughts.map thoughtBody =
      (_initializeSampleData n2 a2).thoughts.map thoughtBody ∧
    (_initializeSampleData n1 a1).executionSteps =
      (_initializeSampleData n2 a2).executionSteps ∧
    (_initializeSampleData n1 a1).actions.map actionBody =
      (_initializeSampleData n2 a2).actions.map actionBody :=
  ⟨rfl, rfl, rfl, rfl, rfl, rfl⟩

/-- C7: submitting a non-empty agent command appends exactly one
thinking-type thought describing the command, and leaves the action log
and the execution-step log unchanged (no action, no response). -/
theorem sendAgentCommand_appends_single_thought (now : Int) (cmd : String)
    (a : AgentState) (h : jsTrim cmd ≠ "") :
    (_sendAgentCommand now cmd a).thoughts =
      a.thoughts ++ [{ timestamp := now, type := ThoughtType.thinking,
                       message := "Processing: \"" ++ cmd ++ "\"" }] ∧
    (_sendAgentCommand now cmd a).actions = a.actions ∧
    (_sendAgentCommand now cmd a).executionSteps = a.executionSteps := by
  simp [_sendAgentCommand, h]

/-- C7 witness: a concrete non-empty command. -/
theorem sendAgentCommand_appends_single_thought_witness :
    (_sendAgentCommand 0 "add a column" agentState0).thoughts =
      agentState0.thoughts ++ [{ timestamp := 0, type := ThoughtType.thinking,
                                 message := "Processing: \"" ++ "add a column" ++ "\"" }] ∧
    (_sendAgentCommand 0 "add a column" agentState0).actions = agentState0.actions ∧
    (_sendAgentCommand 0 "add a column" agentState0).executionSteps =
      agentState0.executionSteps :=
  sendAgentCommand_appends_single_thought 0 "add a column" agentState0 (by decide)

/-- C8: outside the explicit clear operation, logs only grow. Sending a
chat message and the delayed response each leave the old message log as a
prefix of the new one (typing into the input box leaves it untouched);
submitting an agent command leaves the old thought log as a prefix of the
new one and the other three agent logs untouched; toggling pause mutates
no log at all. -/
theorem logs_monotone (s : ChatState) (text : String) (a : AgentState)
    (cmd : String) (now : Int) :
    s.messages <+: (_sendMessage s).messages ∧
    s.messages <+: (_resolveResponse s).messages ∧
    (setInputText s text).messages = s.messages ∧
    a.thoughts <+: (_sendAgentCommand now cmd a).thoughts ∧
    (_sendAgentCommand now cmd a).actions = a.actions ∧
    (_sendAgentCommand now cmd a).executionSteps = a.executionSteps ∧
    (_sendAgentCommand now cmd a).memoryContext = a.memoryContext ∧
    (_togglePause a).thoughts = a.thoughts ∧
    (_togglePause a).actions = a.actions ∧
    (_togglePause a).executionSteps = a.executionSteps ∧
    (_togglePause a).memoryContext = a.memoryContext := by
  refine ⟨?_, ?_, rfl, ?_, ?_, ?_, ?_, rfl, rfl, rfl, rfl⟩
  · unfold _sendMessage
    dsimp only
    split
    · exact ⟨[], List.append_nil _⟩
    · exact ⟨_, rfl⟩
  · unfold _resolveResponse
    split
    · exact ⟨[], List.append_nil _⟩
    · exact ⟨_, rfl⟩
  · unfold _sendAgentCommand
    split
    · exact ⟨[], List.append_nil _⟩
    · exact ⟨_, rfl⟩
  · unfold _sendAgentCommand
    split <;> rfl
  · unfold _sendAgentCommand
    split <;> rfl
  · unfold _sendAgentCommand
    split <;> rfl

/-- C9: `_clearAgent` empties exactly the four list logs — thoughts,
actions, execution steps and the memory context (a fourth list beyond the
three the spec names) — and changes nothing else: pause flag, schema,
generated code, selected action, auto-scroll and live-preview flags are
untouched. In particular a previously selected action stays selected even
though the action log it came from is now empty. -/
theorem clearAgent_frame (a : AgentState) :
    _clearAgent a = { a with thoughts := [], actions := [],
                             executionSteps := [], memoryContext := [] } ∧
    (_clearAgent a).isPaused = a.isPaused ∧
    (_clearAgent a).schema = a.schema ∧
    (_clearAgent a).generatedCode = a.generatedCode ∧
    (_clearAgent a).selectedAction = a.selectedAction ∧
    (_clearAgent a).autoScroll = a.autoScroll ∧
    (_clearAgent a).livePreviewEnabled = a.livePreviewEnabled :=
  ⟨rfl, rfl, rfl, rfl, rfl, rfl, rfl⟩

/-- C10: at construction the conversation log is exactly the one fixed
welcome message, whose sender is ai; and since every operation either
preserves or appends to the log, the log is non-empty in every reachable
state of the panel's lifetime. -/
theorem chat_log_initially_welcome_and_never_empty :
    chatPanelInit.messages = [welcomeMessage] ∧
    welcomeMessage.sender = Sender.ai ∧
    ∀ s : ChatState, ChatReachable s → s.messages ≠ [] := by
  refine ⟨rfl, rfl, ?_⟩
  intro s h
  induction h with
  | init => simp [chatPanelInit]
  | input text _ ih => exact ih
  | send _ ih =>
      unfold _sendMessage
      dsimp only
      split
      · exact ih
      · simp
  | resolve _ ih =>
      unfold _resolveResponse
      split
      · exact ih
      · simp
  | dispose _ ih => exact ih

/-- C10 witness: the invariant applied at the constructed state. -/
theorem chat_log_initially_welcome_and_never_empty_witness :
    chatPanelInit.messages ≠ [] :=
  chat_log_initially_welcome_and_never_empty.2.2 chatPanelInit ChatReachable.init
